import Mathlib

/-
Verification of the core of the FermatSnellSimulator repository.

The file shallowly embeds the class `PathSimulator` from
`src/simulation/simulator.py` over exact real arithmetic:

* Python floats become `ℝ`; `math.sin/cos/atan/asin` become
  `Real.sin/cos/arctan/arcsin`; `math.atan2 y x` becomes the principal
  argument of the complex number `x + y*I`; `np.sqrt` becomes `Real.sqrt`;
  `np.clip`/`np.sign` become `np_clip`/`Real.sign` below.
* The external bounded minimizer `scipy.optimize.minimize` is a parameter of
  type `Minimizer`; the embedding keeps exactly what the source does with it
  (passes the objective, the initial guess `point_a[0]`, the bounds pair, and
  reads `res.x[0]` only — never `res.success`).
* Python raising `ZeroDivisionError` on float division by zero is modelled by
  `Except` in the constructor, the only place the source can raise.
-/

noncomputable section

/-- Result record of the external bounded minimizer (`scipy.optimize.minimize`):
`x` is the candidate minimizer (the source reads `res.x[0]`), `success` is the
convergence flag (present on the scipy result object; the source never reads it). -/
structure OptResult where
  x : ℝ
  success : Bool

/-- Type of the external bounded 1-D minimizer: it receives the objective, the
initial guess `x0` and the bounds pair `(lo, hi)` (the source passes
`bounds_x = [(min_x, max_x)]`, a single pair). -/
abbrev Minimizer : Type := (ℝ → ℝ) → ℝ → ℝ × ℝ → OptResult

/-- The only error the constructor can raise: Python float division raises
`ZeroDivisionError` exactly when the divisor is zero. -/
inductive SimError where
  | zeroDivision : SimError
deriving DecidableEq

/-- State stored by `PathSimulator.__init__` (simulator.py lines 52-66): the
reference speed, the two refractive indices derived from the material
velocities, the endpoints, the interface height and the plane size.  The raw
material velocities themselves are not stored. -/
structure PathSimulator where
  speed_of_light : ℝ
  refractive_index_1 : ℝ
  refractive_index_2 : ℝ
  point_a : ℝ × ℝ
  point_b : ℝ × ℝ
  interface_y : ℝ
  plane_size : ℝ × ℝ

/-- The successful body of `__init__`: stores
`refractive_index_i = speed_of_light / material_velocity_i` (lines 58-59)
and the remaining parameters unchanged. -/
def PathSimulator.ofParams (c v1 v2 : ℝ) (a b : ℝ × ℝ) (iy : ℝ) (ps : ℝ × ℝ) :
    PathSimulator :=
  ⟨c, c / v1, c / v2, a, b, iy, ps⟩

/-- `__init__` with Python float-division semantics: computing
`speed_of_light / material_velocity_1` (line 58) raises `ZeroDivisionError`
when `v1 = 0`, then line 59 raises when `v2 = 0`; otherwise construction
succeeds.  No other validation exists in the source: negative velocities and
arbitrary (including non-positive) reference speeds are accepted. -/
def PathSimulator.init (c v1 v2 : ℝ) (a b : ℝ × ℝ) (iy : ℝ) (ps : ℝ × ℝ) :
    Except SimError PathSimulator :=
  if v1 = 0 then Except.error SimError.zeroDivision
  else if v2 = 0 then Except.error SimError.zeroDivision
  else Except.ok (PathSimulator.ofParams c v1 v2 a b iy ps)

/-- `math.atan2 y x`: the four-quadrant angle of the vector `(x, y)`, embedded
as the principal argument of the complex number with real part `x` and
imaginary part `y`.  Both take values in `(-π, π]` and both send `(0, 0)` to
`0`, matching Python's `math.atan2(0.0, 0.0) = 0.0`. -/
def atan2 (y x : ℝ) : ℝ := Complex.arg ⟨x, y⟩

/-- `np.clip(x, lo, hi)`, which numpy documents as
`np.minimum(hi, np.maximum(x, lo))`. -/
def np_clip (x lo hi : ℝ) : ℝ := min hi (max x lo)

namespace PathSimulator

/-- Lines 69-82: Euclidean distance from `point_a` to `(x_interface, interface_y)`
and the four-quadrant angle `atan2(dy, dx)` of that segment. -/
def calculate_distance_and_incidence_angle (s : PathSimulator) (x_interface : ℝ) :
    ℝ × ℝ :=
  (Real.sqrt ((x_interface - s.point_a.1) ^ 2 + (s.interface_y - s.point_a.2) ^ 2),
   atan2 (s.interface_y - s.point_a.2) (x_interface - s.point_a.1))

/-- Lines 85-101: total travel time
`segment_1 / speed_of_light * refractive_index_1 + segment_2 / speed_of_light * refractive_index_2`. -/
def time_to_travel (s : PathSimulator) (x_interface : ℝ) : ℝ :=
  (s.calculate_distance_and_incidence_angle x_interface).1 / s.speed_of_light
      * s.refractive_index_1
    + Real.sqrt ((s.point_b.1 - x_interface) ^ 2 + (s.point_b.2 - s.interface_y) ^ 2)
        / s.speed_of_light * s.refractive_index_2

/-- Lines 104-125: invoke the external bounded minimizer on `time_to_travel`
with initial guess `point_a[0]` and bounds `(min_x, max_x)`, and return
`res.x[0]` unconditionally — the convergence flag `res.success` is never
inspected and no exception is raised on non-convergence. -/
def calculate_optimal_path (s : PathSimulator) (m : Minimizer) : ℝ :=
  (m s.time_to_travel s.point_a.1
      (min s.point_a.1 s.point_b.1, max s.point_a.1 s.point_b.1)).x

/-- Lines 141-142: `sine_refraction = (n1 / n2) * sin(incidence_angle)`,
before clamping. -/
def sine_refraction (s : PathSimulator) (xi : ℝ) : ℝ :=
  s.refractive_index_1 / s.refractive_index_2
    * Real.sin (s.calculate_distance_and_incidence_angle xi).2

/-- Line 143: `sine_refraction = np.clip(sine_refraction, -1, 1)`. -/
def sine_refraction_clipped (s : PathSimulator) (xi : ℝ) : ℝ :=
  np_clip (s.sine_refraction xi) (-1) 1

/-- Line 144: `refraction_angle = math.asin(sine_refraction)`.  Note that
`calculate_path` computes this value but never uses it to build the returned
path (the spec flags this in its §4.1 note). -/
def refraction_angle (s : PathSimulator) (xi : ℝ) : ℝ :=
  Real.arcsin (s.sine_refraction_clipped xi)

/-- Line 147: `x_incidence = point_a[0] + distance_1 * cos(incidence_angle)`. -/
def x_incidence (s : PathSimulator) (xi : ℝ) : ℝ :=
  s.point_a.1 + (s.calculate_distance_and_incidence_angle xi).1
      * Real.cos (s.calculate_distance_and_incidence_angle xi).2

/-- Line 148: `y_incidence = point_a[1] + distance_1 * sin(incidence_angle)`.
Computed by the source but unused: the path stores `interface_y` as the second
point's ordinate (line 166). -/
def y_incidence (s : PathSimulator) (xi : ℝ) : ℝ :=
  s.point_a.2 + (s.calculate_distance_and_incidence_angle xi).1
      * Real.sin (s.calculate_distance_and_incidence_angle xi).2

/-- Line 151: straight-line distance from the crossing point to `point_b`. -/
def segment_2 (s : PathSimulator) (xi : ℝ) : ℝ :=
  Real.sqrt ((s.point_b.1 - xi) ^ 2 + (s.point_b.2 - s.interface_y) ^ 2)

/-- Lines 154-159: direction of the refracted path.  When `point_b[0] ≠ xi`
the arctangent of the slope toward `point_b`; in the vertical case
`π/2 * np.sign(point_b[1] - interface_y)`. -/
def angle_to_horizontal (s : PathSimulator) (xi : ℝ) : ℝ :=
  if s.point_b.1 ≠ xi then
    Real.arctan ((s.point_b.2 - s.interface_y) / (s.point_b.1 - xi))
  else Real.pi / 2 * Real.sign (s.point_b.2 - s.interface_y)

/-- Line 162: `x_refraction = xi + segment_2 * cos(angle_to_horizontal)`. -/
def x_refraction (s : PathSimulator) (xi : ℝ) : ℝ :=
  xi + s.segment_2 xi * Real.cos (s.angle_to_horizontal xi)

/-- Line 163: `y_refraction = interface_y + segment_2 * sin(angle_to_horizontal)`. -/
def y_refraction (s : PathSimulator) (xi : ℝ) : ℝ :=
  s.interface_y + s.segment_2 xi * Real.sin (s.angle_to_horizontal xi)

/-- Lines 128-169: full path.  The source first obtains the optimal crossing
from `calculate_optimal_path`, computes the (unused) refraction angle
(lines 141-144, embedded as `refraction_angle` above), and returns the
concatenation of `[point_a, [x_incidence, interface_y]]` and
`[[x_refraction, y_refraction], point_b]` — four points. -/
def calculate_path (s : PathSimulator) (m : Minimizer) : List (ℝ × ℝ) :=
  let xio := s.calculate_optimal_path m
  [s.point_a, (s.x_incidence xio, s.interface_y)] ++
    [(s.x_refraction xio, s.y_refraction xio), s.point_b]

end PathSimulator

/-- Contract of the external bounded minimizer, taken from its documented
behavior (L-BFGS-B projects every iterate into the box, so the returned
abscissa lies inside the bounds whenever they are non-degenerate). -/
def RespectsBounds (m : Minimizer) : Prop :=
  ∀ f x0 lo hi, lo ≤ hi → (m f x0 (lo, hi)).x ∈ Set.Icc lo hi

/-- The configuration of spec §8 / claim C5: `A = (0, 10)`, `B = (10, -10)`,
interface at `y = 0`, equal unit medium speeds, unit reference speed. -/
def simA : PathSimulator := PathSimulator.ofParams 1 1 1 (0, 10) (10, -10) 0 (20, 20)

/-- Same geometry as `simA` with `B` moved to the left of `A`, so the crossing
abscissa exceeds `point_b.1`. -/
def simB : PathSimulator := PathSimulator.ofParams 1 1 1 (0, 10) (-10, -10) 0 (20, 20)

/-- Configuration with `B = (3, 4)` above the interface, used to exercise the
vertical branch of `angle_to_horizontal` at `xi = 3`. -/
def simVert : PathSimulator := PathSimulator.ofParams 1 1 1 (0, 0) (3, 4) 0 (20, 20)

/-- Degenerate configuration with `point_a.1 = point_b.1 = 3`. -/
def simDeg : PathSimulator := PathSimulator.ofParams 1 1 1 (3, 5) (3, -5) 0 (20, 20)

/-- A minimizer that reports the exact optimum `x = 5` of `simA` (and returns
`5` on every problem). -/
def solverFive : Minimizer := fun _ _ _ => ⟨5, true⟩

/-- A minimizer whose result reports non-convergence (`success = false`)
together with a candidate point `7`. -/
def solverDiverged : Minimizer := fun _ _ _ => ⟨7, false⟩

/-- A minimizer that always returns the lower bound, converged. -/
def solverLo : Minimizer := fun _ _ bounds => ⟨bounds.1, true⟩

namespace PathSimulator

/-- Projection algebra for the second segment: scaling the unit direction of
`arctan (v/u)` by the length `√(u² + v²)` advances by `|u|` horizontally and by
`v·|u|/u` vertically (the arctangent loses the quadrant of `u`). -/
theorem proj_arctan (u v : ℝ) (hu : u ≠ 0) :
    Real.sqrt (u ^ 2 + v ^ 2) * Real.cos (Real.arctan (v / u)) = |u|
      ∧ Real.sqrt (u ^ 2 + v ^ 2) * Real.sin (Real.arctan (v / u)) = v * |u| / u := by
  have h2 : 0 < u ^ 2 := pow_two_pos_of_ne_zero hu
  have hsum : 0 < u ^ 2 + v ^ 2 := by nlinarith [sq_nonneg v]
  have hs0 : 0 < Real.sqrt (u ^ 2 + v ^ 2) := Real.sqrt_pos.mpr hsum
  have habs : (0 : ℝ) < |u| := abs_pos.mpr hu
  have hform : Real.sqrt (1 + (v / u) ^ 2) = Real.sqrt (u ^ 2 + v ^ 2) / |u| := by
    rw [show (1 : ℝ) + (v / u) ^ 2 = (u ^ 2 + v ^ 2) / u ^ 2 by field_simp]
    rw [Real.sqrt_div hsum.le, Real.sqrt_sq_eq_abs]
  constructor
  · rw [Real.cos_arctan, hform, one_div_div]
    field_simp
  · rw [Real.sin_arctan, hform]
    field_simp
    ring

/-- In exact real arithmetic the incidence abscissa collapses to the crossing
abscissa: `point_a[0] + distance_1 * cos(atan2 dy dx) = point_a[0] + dx = xi`,
including the degenerate case where `point_a` lies at the crossing point. -/
theorem x_incidence_eq (s : PathSimulator) (xi : ℝ) : s.x_incidence xi = xi := by
  unfold x_incidence calculate_distance_and_incidence_angle atan2
  by_cases hz : (⟨xi - s.point_a.1, s.interface_y - s.point_a.2⟩ : ℂ) = 0
  · have hdx : xi - s.point_a.1 = 0 := by simpa using congrArg Complex.re hz
    have hdy : s.interface_y - s.point_a.2 = 0 := by simpa using congrArg Complex.im hz
    rw [hdx, hdy]
    simp only [ne_eq, OfNat.ofNat_ne_zero, not_false_eq_true, zero_pow, add_zero,
      Real.sqrt_zero, zero_mul]
    linarith
  · have habs : Complex.abs ⟨xi - s.point_a.1, s.interface_y - s.point_a.2⟩
        = Real.sqrt ((xi - s.point_a.1) ^ 2 + (s.interface_y - s.point_a.2) ^ 2) := by
      rw [Complex.abs_apply, Complex.normSq_mk]
      congr 1
      ring
    have hne : Complex.abs ⟨xi - s.point_a.1, s.interface_y - s.point_a.2⟩ ≠ 0 :=
      Complex.abs.ne_zero hz
    rw [Complex.cos_arg hz, ← habs]
    have hcan : Complex.abs ⟨xi - s.point_a.1, s.interface_y - s.point_a.2⟩
          * ((⟨xi - s.point_a.1, s.interface_y - s.point_a.2⟩ : ℂ).re
              / Complex.abs ⟨xi - s.point_a.1, s.interface_y - s.point_a.2⟩)
        = xi - s.point_a.1 := by
      field_simp
    rw [hcan]
    ring

/-- When `point_b.1 > xi` the source's direct-direction projection lands the
third path point exactly on `point_b` (the last segment has zero length). -/
theorem refr_point_of_lt (s : PathSimulator) (xi : ℝ) (h : xi < s.point_b.1) :
    (s.x_refraction xi, s.y_refraction xi) = s.point_b := by
  have hne : s.point_b.1 ≠ xi := ne_of_gt h
  have hu : s.point_b.1 - xi ≠ 0 := sub_ne_zero.mpr hne
  have habs : |s.point_b.1 - xi| = s.point_b.1 - xi := abs_of_pos (by linarith)
  have hp := proj_arctan (s.point_b.1 - xi) (s.point_b.2 - s.interface_y) hu
  unfold x_refraction y_refraction segment_2 angle_to_horizontal
  rw [if_pos hne]
  refine Prod.ext_iff.mpr ⟨?_, ?_⟩
  · show xi + Real.sqrt _ * Real.cos _ = s.point_b.1
    rw [show (s.point_b.1 - xi) ^ 2 + (s.point_b.2 - s.interface_y) ^ 2
          = (s.point_b.1 - xi) ^ 2 + (s.point_b.2 - s.interface_y) ^ 2 from rfl, hp.1, habs]
    ring
  · show s.interface_y + Real.sqrt _ * Real.sin _ = s.point_b.2
    rw [hp.2, habs, mul_div_assoc, div_self hu, mul_one]
    ring

/-- When `point_b.1 < xi` the quadrant-losing arctangent flips the projection:
the third path point is the mirror image of `point_b` through the crossing
point `(xi, interface_y)`. -/
theorem refr_point_of_gt (s : PathSimulator) (xi : ℝ) (h : s.point_b.1 < xi) :
    (s.x_refraction xi, s.y_refraction xi)
      = (2 * xi - s.point_b.1, 2 * s.interface_y - s.point_b.2) := by
  have hne : s.point_b.1 ≠ xi := ne_of_lt h
  have hu : s.point_b.1 - xi ≠ 0 := sub_ne_zero.mpr hne
  have habs : |s.point_b.1 - xi| = -(s.point_b.1 - xi) := abs_of_neg (by linarith)
  have hp := proj_arctan (s.point_b.1 - xi) (s.point_b.2 - s.interface_y) hu
  unfold x_refraction y_refraction segment_2 angle_to_horizontal
  rw [if_pos hne]
  refine Prod.ext_iff.mpr ⟨?_, ?_⟩
  · show xi + Real.sqrt _ * Real.cos _ = 2 * xi - s.point_b.1
    rw [hp.1, habs]
    ring
  · show s.interface_y + Real.sqrt _ * Real.sin _ = 2 * s.interface_y - s.point_b.2
    rw [hp.2, habs]
    field_simp
    ring

end PathSimulator

/-- C2 (counterexample): constructing the simulator with the strictly negative
medium speed `material_velocity_1 = -1` succeeds — no `InvalidParameter` (nor
any other) error is raised, refuting the claim that non-positive speeds fail
before computation begins. -/
theorem fermat_C2_counterexample :
    PathSimulator.init 1 (-1) 2 (0, 10) (10, -10) 0 (20, 20)
        = Except.ok (PathSimulator.ofParams 1 (-1) 2 (0, 10) (10, -10) 0 (20, 20))
      ∧ ((-1 : ℝ) < 0) := by
  refine ⟨?_, by norm_num⟩
  unfold PathSimulator.init
  rw [if_neg (by norm_num), if_neg (by norm_num)]

/-- C2 (amended): the constructor performs no parameter validation.  It fails
(with Python's division-by-zero error while computing a refractive index) when
and only when a material velocity is exactly zero; negative material
velocities and arbitrary reference speeds are accepted silently. -/
theorem fermat_C2_amended (c v1 v2 : ℝ) (a b : ℝ × ℝ) (iy : ℝ) (ps : ℝ × ℝ) :
    PathSimulator.init c v1 v2 a b iy ps = Except.error SimError.zeroDivision
      ↔ v1 = 0 ∨ v2 = 0 := by
  unfold PathSimulator.init
  split_ifs with h1 h2
  · simp [h1]
  · simp [h2]
  · simp [h1, h2]

/-- C3 (counterexample): when the minimizer reports non-convergence
(`success = false`) with candidate `7`, `calculate_optimal_path` still returns
`7` — there is no `OptimizationFailure` error; the non-converged answer is
returned silently. -/
theorem fermat_C3_counterexample :
    (solverDiverged simA.time_to_travel simA.point_a.1 (0, 10)).success = false
      ∧ PathSimulator.calculate_optimal_path simA solverDiverged = 7 :=
  ⟨rfl, rfl⟩

/-- C3 (amended): `calculate_optimal_path` returns the minimizer's candidate
abscissa `res.x[0]` unconditionally; the convergence flag is never inspected
and no error of any kind is raised on non-convergence. -/
theorem fermat_C3_amended (s : PathSimulator) (m : Minimizer) :
    s.calculate_optimal_path m
      = (m s.time_to_travel s.point_a.1
          (min s.point_a.1 s.point_b.1, max s.point_a.1 s.point_b.1)).x := rfl

/-- C4: for every simulator and every minimizer, the returned path is an
ordered sequence of exactly 4 points whose first point is `point_a` and whose
fourth point is `point_b`, exactly. -/
theorem fermat_C4 (s : PathSimulator) (m : Minimizer) :
    (s.calculate_path m).length = 4
      ∧ (s.calculate_path m).getD 0 (0, 0) = s.point_a
      ∧ (s.calculate_path m).getD 3 (0, 0) = s.point_b :=
  ⟨rfl, rfl, rfl⟩

/-- C1 (counterexample): for the configuration `A = (0, 10)`, `B = (10, -10)`,
`interface_y = 0`, equal speeds, with the minimizer reporting the optimum
`x = 5`, the claimed invariant fails: the third path point is `B = (10, -10)`,
so its ordinate is `-10 ≠ 0` and its abscissa differs from the second point's. -/
theorem fermat_C1_counterexample :
    ¬ (((simA.calculate_path solverFive).getD 1 (0, 0)).2 = simA.interface_y
       ∧ ((simA.calculate_path solverFive).getD 2 (0, 0)).2 = simA.interface_y
       ∧ ((simA.calculate_path solverFive).getD 1 (0, 0)).1
           = ((simA.calculate_path solverFive).getD 2 (0, 0)).1) := by
  intro hcl
  have h2 : (simA.calculate_path solverFive).getD 2 (0, 0) = simA.point_b :=
    PathSimulator.refr_point_of_lt simA (simA.calculate_optimal_path solverFive)
      (show (5 : ℝ) < 10 by norm_num)
  rw [h2] at hcl
  have hbad : (-10 : ℝ) = 0 := hcl.2.1
  norm_num at hbad

/-- C1 (amended): only the second path point is guaranteed to lie on the
interface; it equals `(x*, interface_y)` exactly, where `x*` is the crossing
abscissa returned by the minimizer.  (The third point instead equals `B` or
its mirror image through the crossing point; see C10.) -/
theorem fermat_C1_amended (s : PathSimulator) (m : Minimizer) :
    (s.calculate_path m).getD 1 (0, 0) = (s.calculate_optimal_path m, s.interface_y) := by
  have h : (s.calculate_path m).getD 1 (0, 0)
      = (s.x_incidence (s.calculate_optimal_path m), s.interface_y) := rfl
  rw [h, PathSimulator.x_incidence_eq]

/-- C10: in exact real arithmetic, when `B.x` exceeds the crossing abscissa the
third path point equals `B` exactly; when `B.x` is below the crossing abscissa
it equals the mirror image `(2x* - B.x, 2·interface_y - B.y)` of `B` through
the crossing point. -/
theorem fermat_C10 (s : PathSimulator) (m : Minimizer) :
    (s.calculate_optimal_path m < s.point_b.1 →
        (s.calculate_path m).getD 2 (0, 0) = s.point_b)
      ∧ (s.point_b.1 < s.calculate_optimal_path m →
        (s.calculate_path m).getD 2 (0, 0)
          = (2 * s.calculate_optimal_path m - s.point_b.1,
             2 * s.interface_y - s.point_b.2)) :=
  ⟨fun h => PathSimulator.refr_point_of_lt s _ h,
   fun h => PathSimulator.refr_point_of_gt s _ h⟩

/-- Witness for C10: with the crossing at `5`, for `B = (10, -10)` the third
point is `B` itself, and for `B = (-10, -10)` it is the mirror `(20, 10)`. -/
theorem fermat_C10_witness :
    (simA.calculate_path solverFive).getD 2 (0, 0) = simA.point_b
      ∧ (simB.calculate_path solverFive).getD 2 (0, 0) = (20, 10) := by
  constructor
  · exact (fermat_C10 simA solverFive).1 (show (5 : ℝ) < 10 by norm_num)
  · have h := (fermat_C10 simB solverFive).2 (show (-10 : ℝ) < 5 by norm_num)
    rw [h]
    show ((2 * (5 : ℝ) - -10, 2 * (0 : ℝ) - -10) : ℝ × ℝ) = (20, 10)
    norm_num

/-- C9: the direction of the second segment.  In the vertical case
`B.x = xi` no slope is computed: the angle is `π/2 · sign(B.y - interface_y)`,
hence `+π/2` when `B` is above the interface and `-π/2` when below; otherwise
the angle is the arctangent of the slope toward `B`. -/
theorem fermat_C9 (s : PathSimulator) (xi : ℝ) :
    (s.point_b.1 = xi →
        s.angle_to_horizontal xi = Real.pi / 2 * Real.sign (s.point_b.2 - s.interface_y)
          ∧ (s.interface_y < s.point_b.2 → s.angle_to_horizontal xi = Real.pi / 2)
          ∧ (s.point_b.2 < s.interface_y → s.angle_to_horizontal xi = -(Real.pi / 2)))
      ∧ (s.point_b.1 ≠ xi →
        s.angle_to_horizontal xi
          = Real.arctan ((s.point_b.2 - s.interface_y) / (s.point_b.1 - xi))) := by
  constructor
  · intro h
    have hv : s.angle_to_horizontal xi
        = Real.pi / 2 * Real.sign (s.point_b.2 - s.interface_y) := by
      unfold PathSimulator.angle_to_horizontal
      rw [if_neg (not_not_intro h)]
    refine ⟨hv, fun hup => ?_, fun hdn => ?_⟩
    · rw [hv, Real.sign_of_pos (by linarith), mul_one]
    · rw [hv, Real.sign_of_neg (by linarith), mul_neg_one]
  · intro h
    unfold PathSimulator.angle_to_horizontal
    rw [if_pos h]

/-- Witness for C9: for `B = (3, 4)` above the interface `y = 0`, the vertical
case at `xi = 3` gives `+π/2`, and the generic case at `xi = 1` gives
`arctan 2`. -/
theorem fermat_C9_witness :
    simVert.angle_to_horizontal 3 = Real.pi / 2
      ∧ simVert.angle_to_horizontal 1 = Real.arctan 2 := by
  constructor
  · exact ((fermat_C9 simVert 3).1 rfl).2.1 (show (0 : ℝ) < 4 by norm_num)
  · have h := (fermat_C9 simVert 1).2
      (show simVert.point_b.1 ≠ (1 : ℝ) from by
        show (3 : ℝ) ≠ 1
        norm_num)
    rw [h]
    show Real.arctan ((4 - 0) / (3 - 1)) = Real.arctan 2
    norm_num

/-- C7: whenever the external minimizer honors its bounds contract, the
crossing abscissa returned by `calculate_optimal_path` lies in the closed
interval `[min(A.x, B.x), max(A.x, B.x)]`, and when `A.x = B.x` the interval
degenerates and the returned crossing is exactly that abscissa. -/
theorem fermat_C7 (s : PathSimulator) (m : Minimizer) (hm : RespectsBounds m) :
    s.calculate_optimal_path m
        ∈ Set.Icc (min s.point_a.1 s.point_b.1) (max s.point_a.1 s.point_b.1)
      ∧ (s.point_a.1 = s.point_b.1 → s.calculate_optimal_path m = s.point_a.1) := by
  have h := hm s.time_to_travel s.point_a.1
    (min s.point_a.1 s.point_b.1) (max s.point_a.1 s.point_b.1) min_le_max
  refine ⟨h, fun hab => ?_⟩
  have h1 := h.1
  have h2 := h.2
  have hgoal : s.calculate_optimal_path m
      = (m s.time_to_travel s.point_a.1
          (min s.point_a.1 s.point_b.1, max s.point_a.1 s.point_b.1)).x := rfl
  rw [hgoal, ← hab, min_self, max_self]
  rw [← hab, min_self, max_self] at h1 h2
  exact le_antisymm h2 h1

/-- Witness for C7: the degenerate configuration `A.x = B.x = 3` with a
bounds-respecting minimizer yields exactly `3`. -/
theorem fermat_C7_witness : simDeg.calculate_optimal_path solverLo = 3 := by
  have hresp : RespectsBounds solverLo := by
    intro f x0 lo hi hle
    exact Set.mem_Icc.mpr ⟨le_refl lo, hle⟩
  exact (fermat_C7 simDeg solverLo hresp).2 rfl

/-- C8: the refraction sine is clamped into `[-1, 1]` before the inverse sine,
so for every input (including total-internal-reflection configurations) the
clipped value lies in the arcsin domain, the refraction angle is a finite real
in `[-π/2, π/2]`, and the inverse sine inverts exactly on the clipped value. -/
theorem fermat_C8 (s : PathSimulator) (xi : ℝ) :
    -1 ≤ s.sine_refraction_clipped xi
      ∧ s.sine_refraction_clipped xi ≤ 1
      ∧ |s.refraction_angle xi| ≤ Real.pi / 2
      ∧ Real.sin (s.refraction_angle xi) = s.sine_refraction_clipped xi := by
  have h1 : -1 ≤ s.sine_refraction_clipped xi :=
    le_min (by norm_num) (le_max_right _ _)
  have h2 : s.sine_refraction_clipped xi ≤ 1 := min_le_left _ _
  refine ⟨h1, h2, ?_, Real.sin_arcsin h1 h2⟩
  exact abs_le.mpr ⟨Real.neg_pi_div_two_le_arcsin _, Real.arcsin_le_pi_div_two _⟩

/-- C6: for a simulator built from reference speed `c` and medium speeds
`v1, v2`, the travel time is
`distance_1 * refractive_index_1 / c + distance_2 * refractive_index_2 / c`
with `refractive_index_i = c / v_i`; for `c ≠ 0` the reference-speed factors
cancel, leaving `distance_1 / v1 + distance_2 / v2`, so the value does not
depend on the (nonzero) reference speed. -/
theorem fermat_C6 (c c2 v1 v2 : ℝ) (a b : ℝ × ℝ) (iy : ℝ) (ps : ℝ × ℝ) (x : ℝ)
    (hc : c ≠ 0) (hc2 : c2 ≠ 0) :
    (PathSimulator.ofParams c v1 v2 a b iy ps).time_to_travel x
        = ((PathSimulator.ofParams c v1 v2 a b iy ps).calculate_distance_and_incidence_angle x).1
              * (PathSimulator.ofParams c v1 v2 a b iy ps).refractive_index_1 / c
            + Real.sqrt ((b.1 - x) ^ 2 + (b.2 - iy) ^ 2)
              * (PathSimulator.ofParams c v1 v2 a b iy ps).refractive_index_2 / c
      ∧ (PathSimulator.ofParams c v1 v2 a b iy ps).time_to_travel x
        = ((PathSimulator.ofParams c v1 v2 a b iy ps).calculate_distance_and_incidence_angle x).1 / v1
            + Real.sqrt ((b.1 - x) ^ 2 + (b.2 - iy) ^ 2) / v2
      ∧ (PathSimulator.ofParams c v1 v2 a b iy ps).time_to_travel x
        = (PathSimulator.ofParams c2 v1 v2 a b iy ps).time_to_travel x := by
  have key : ∀ d w : ℝ, d / c * (c / w) = d / w := by
    intro d w
    rw [div_mul_div_comm, mul_comm d c, mul_div_mul_left _ _ hc]
  have key2 : ∀ d w : ℝ, d / c2 * (c2 / w) = d / w := by
    intro d w
    rw [div_mul_div_comm, mul_comm d c2, mul_div_mul_left _ _ hc2]
  unfold PathSimulator.time_to_travel PathSimulator.calculate_distance_and_incidence_angle
    PathSimulator.ofParams
  refine ⟨by ring, ?_, ?_⟩
  · simp only [key]
  · simp only [key, key2]

/-- Closed form of the travel-time objective of `simA`:
`√(x² + 100) + √((10 - x)² + 100)`. -/
def timeObj (x : ℝ) : ℝ := Real.sqrt (x ^ 2 + 100) + Real.sqrt ((10 - x) ^ 2 + 100)

/-- `simA`'s objective function coincides with `timeObj`. -/
theorem time_simA (x : ℝ) : simA.time_to_travel x = timeObj x := by
  unfold timeObj PathSimulator.time_to_travel PathSimulator.calculate_distance_and_incidence_angle
  simp only [simA, PathSimulator.ofParams]
  rw [show (x - (0 : ℝ)) ^ 2 + ((0 : ℝ) - 10) ^ 2 = x ^ 2 + 100 by ring,
      show ((10 : ℝ) - x) ^ 2 + ((-10 : ℝ) - 0) ^ 2 = (10 - x) ^ 2 + 100 by ring]
  norm_num

/-- Lower bound for `simA`'s objective by the triangle inequality in the
plane: the bent path from `(0, 10)` down to the interface and on to
`(10, -10)` is at least as long as the straight segment, of length `√500`. -/
theorem timeObj_ge (x : ℝ) : Real.sqrt 500 ≤ timeObj x := by
  have h1 : Real.sqrt (x ^ 2 + 100) = Complex.abs ⟨x, 10⟩ := by
    rw [Complex.abs_apply, Complex.normSq_mk]
    congr 1
    ring
  have h2 : Real.sqrt ((10 - x) ^ 2 + 100) = Complex.abs ⟨10 - x, 10⟩ := by
    rw [Complex.abs_apply, Complex.normSq_mk]
    congr 1
    ring
  have hadd : (⟨x, 10⟩ + ⟨10 - x, 10⟩ : ℂ) = ⟨10, 20⟩ := by
    apply Complex.ext
    · show x + (10 - x) = (10 : ℝ)
      ring
    · show (10 : ℝ) + 10 = 20
      norm_num
  have h3 : Complex.abs ⟨10, 20⟩ = Real.sqrt 500 := by
    rw [Complex.abs_apply, Complex.normSq_mk]
    norm_num
  have htri := Complex.abs.add_le ⟨x, 10⟩ ⟨10 - x, 10⟩
  rw [hadd, h3] at htri
  unfold timeObj
  rw [h1, h2]
  exact htri

/-- The objective value at the symmetric crossing `x = 5` is exactly `√500`. -/
theorem timeObj_five : timeObj 5 = Real.sqrt 500 := by
  unfold timeObj
  rw [show ((5 : ℝ) ^ 2 + 100) = 125 by norm_num,
      show ((10 : ℝ) - 5) ^ 2 + 100 = 125 by norm_num,
      show (500 : ℝ) = 4 * 125 by norm_num,
      Real.sqrt_mul (by norm_num : (0 : ℝ) ≤ 4),
      show Real.sqrt 4 = 2 by
        rw [show (4 : ℝ) = 2 ^ 2 by norm_num, Real.sqrt_sq (by norm_num : (0 : ℝ) ≤ 2)]]
  ring

/-- `x = 5` is the global minimum of `simA`'s objective. -/
theorem timeObj_min (x : ℝ) : timeObj 5 ≤ timeObj x := by
  rw [timeObj_five]
  exact timeObj_ge x

/-- The minimum of `simA`'s objective is attained only at `x = 5`. -/
theorem timeObj_eq5 (x : ℝ) (h : timeObj x ≤ timeObj 5) : x = 5 := by
  have hge := timeObj_ge x
  rw [timeObj_five] at h
  have heq : timeObj x = Real.sqrt 500 := le_antisymm h hge
  have hu2 : Real.sqrt (x ^ 2 + 100) ^ 2 = x ^ 2 + 100 := Real.sq_sqrt (by positivity)
  have hw2 : Real.sqrt ((10 - x) ^ 2 + 100) ^ 2 = (10 - x) ^ 2 + 100 :=
    Real.sq_sqrt (by positivity)
  have h500 : (Real.sqrt (x ^ 2 + 100) + Real.sqrt ((10 - x) ^ 2 + 100)) ^ 2 = 500 := by
    unfold timeObj at heq
    rw [heq, Real.sq_sqrt (by norm_num : (0 : ℝ) ≤ 500)]
  set u := Real.sqrt (x ^ 2 + 100)
  set w := Real.sqrt ((10 - x) ^ 2 + 100)
  have huw : u * w = -(x ^ 2) + 10 * x + 100 := by
    linear_combination (h500 - hu2 - hw2) / 2
  have hprod : (u * w) ^ 2 = (x ^ 2 + 100) * ((10 - x) ^ 2 + 100) := by
    rw [mul_pow, hu2, hw2]
  have hz : (x - 5) ^ 2 = 0 := by
    linear_combination ((u * w + (-(x ^ 2) + 10 * x + 100)) * huw - hprod) / 400
  have hx5 : x - 5 = 0 := sq_eq_zero_iff.mp hz
  linarith

/-- C5 (counterexample): for `A = (0, 10)`, `B = (10, -10)`, interface `y = 0`
and equal speeds, with the minimizer reporting the true optimum `5`, the
crossing is `5` but the path's middle points are NOT both `(5, 0)`: the third
point is `B = (10, -10)`. -/
theorem fermat_C5_counterexample :
    simA.calculate_optimal_path solverFive = 5
      ∧ ¬ ((simA.calculate_path solverFive).getD 1 (0, 0) = (5, 0)
           ∧ (simA.calculate_path solverFive).getD 2 (0, 0) = (5, 0)) := by
  refine ⟨rfl, fun hcl => ?_⟩
  have h2 : (simA.calculate_path solverFive).getD 2 (0, 0) = simA.point_b :=
    PathSimulator.refr_point_of_lt simA (simA.calculate_optimal_path solverFive)
      (show (5 : ℝ) < 10 by norm_num)
  have hbad : simA.point_b = ((5 : ℝ), (0 : ℝ)) := h2.symm.trans hcl.2
  have hten : (10 : ℝ) = 5 := congrArg Prod.fst hbad
  norm_num at hten

/-- C5 (amended): whenever the minimizer's answer is a global minimizer of the
travel time over the search interval `[0, 10]`, the crossing abscissa is
exactly `5`, the second path point is exactly `(5, 0)` — and the third path
point is `B = (10, -10)`, not `(5, 0)`. -/
theorem fermat_C5_amended (m : Minimizer)
    (hmin : ∀ y ∈ Set.Icc (0 : ℝ) 10,
        simA.time_to_travel (simA.calculate_optimal_path m) ≤ simA.time_to_travel y) :
    simA.calculate_optimal_path m = 5
      ∧ (simA.calculate_path m).getD 1 (0, 0) = (5, 0)
      ∧ (simA.calculate_path m).getD 2 (0, 0) = (10, -10) := by
  have h5 := hmin 5 (Set.mem_Icc.mpr (by norm_num))
  rw [time_simA, time_simA] at h5
  have hx : simA.calculate_optimal_path m = 5 := timeObj_eq5 _ h5
  refine ⟨hx, ?_, ?_⟩
  · have h : (simA.calculate_path m).getD 1 (0, 0)
        = (simA.x_incidence (simA.calculate_optimal_path m), simA.interface_y) := rfl
    rw [h, PathSimulator.x_incidence_eq, hx]
    rfl
  · have h : (simA.calculate_path m).getD 2 (0, 0)
        = (simA.x_refraction (simA.calculate_optimal_path m),
           simA.y_refraction (simA.calculate_optimal_path m)) := rfl
    rw [h, hx]
    have hb := PathSimulator.refr_point_of_lt simA 5 (show (5 : ℝ) < 10 by norm_num)
    rw [hb]
    rfl

/-- Witness for C5: the exact-optimum minimizer satisfies the global-minimizer
hypothesis, and the conclusions evaluate as stated. -/
theorem fermat_C5_witness :
    simA.calculate_optimal_path solverFive = 5
      ∧ (simA.calculate_path solverFive).getD 1 (0, 0) = (5, 0)
      ∧ (simA.calculate_path solverFive).getD 2 (0, 0) = (10, -10) :=
  fermat_C5_amended solverFive (by
    intro y hy
    rw [time_simA, time_simA]
    show timeObj 5 ≤ timeObj y
    exact timeObj_min y)

/-- Witness for C6 at a concrete configuration with two different nonzero
reference speeds. -/
theorem fermat_C6_witness :
    (PathSimulator.ofParams 2 1 1 (0, 10) (10, -10) 0 (20, 20)).time_to_travel 5
      = (PathSimulator.ofParams 3 1 1 (0, 10) (10, -10) 0 (20, 20)).time_to_travel 5 :=
  (fermat_C6 2 3 1 1 (0, 10) (10, -10) 0 (20, 20) 5 (by norm_num) (by norm_num)).2.2

end
